import Mathlib

/-!
Shallow embedding of the Student-Gallery backend (src/backend/server.js and
the credential-based variant src/unnamed/part_000) and proofs about its
claims.

Modelling conventions:
* A Google Drive `files.list` call is represented by a structured
  `DriveQuery` mirroring the `q` string the code builds:
  `DriveQuery.findFolder name parent` stands for
  `name='NAME' and mimeType='application/vnd.google-apps.folder'`
  optionally conjoined with `'PARENT' in parents`, and
  `DriveQuery.listImages parent` stands for
  `'PARENT' in parents and mimeType contains 'image/'`.
* The upstream service is an `Oracle`: a function from a query to either an
  error (a rejected promise) or the returned file list.
* The process-wide `folderCache` object is an association list; a JS
  truthiness test `!x` on a cache slot is `jsFalsy` (absent or empty string).
* `async` control flow is sequential here, exactly as in the source, where
  every upstream call is awaited in order.  Each fetch function returns the
  produced image list, the final cache, and the list of issued queries.
-/

namespace StudentGallery

/-- Metadata of a Drive file as used by the code: `files(id, name, mimeType)`. -/
structure DriveFile where
  id : String
  name : String
  mimeType : String
deriving DecidableEq, Repr

/-- Structured form of the `q` filter of a `drive.files.list` call. -/
inductive DriveQuery where
  | findFolder (name : String) (parent : Option String)
  | listImages (parent : String)
deriving DecidableEq, Repr

/-- The upstream Drive service: each issued query either rejects with an
error message or resolves with a list of files. -/
abbrev Oracle := DriveQuery → Except String (List DriveFile)

/-- The process-wide `folderCache = {}` object, as an association list from
path keys (such as `Images`, `Images/UG`) to folder-id strings. -/
abbrev Cache := List (String × String)

/-- Property lookup on the cache object: `folderCache[key]`. -/
def jsGet : Cache → String → Option String
  | [], _ => none
  | (k, v) :: rest, key => if k = key then some v else jsGet rest key

/-- Property assignment on the cache object: `folderCache[key] = value`. -/
def jsSet (cache : Cache) (key value : String) : Cache :=
  (key, value) :: cache

/-- JS truthiness test `!x` on a cache slot: `undefined` and the empty
string are falsy. -/
def jsFalsy : Option String → Bool
  | none => true
  | some s => s = ""

/-- One element of the response's `images` array. -/
structure ImageRef where
  id : String
  url : String
  type : String
deriving DecidableEq, Repr

/-- `const MAX_IMAGES = 10000`. -/
def MAX_IMAGES : Nat := 10000

/-- The mapping applied to each listed file:
`{ id: file.id, url: \x60/api/image/${file.id}\x60, type: file.mimeType }`. -/
def mkImageRef (file : DriveFile) : ImageRef :=
  { id := file.id, url := "/api/image/" ++ file.id, type := file.mimeType }

/-- Result of one run of a fetch function: the returned image list, the
cache after the run, and the upstream queries issued, in order. -/
structure FetchResult where
  images : List ImageRef
  cache : Cache
  calls : List DriveQuery
deriving DecidableEq, Repr

/-- Step 3 of `getLevelImages` (server.js:200-214): list the image files in
the level folder, cap at `MAX_IMAGES`, and map to `ImageRef`s.  An upstream
error propagates to the surrounding catch, which returns `[]`. -/
def glStep3 (oracle : Oracle) (levelFolderId : String) (cache : Cache)
    (calls : List DriveQuery) : FetchResult :=
  match oracle (DriveQuery.listImages levelFolderId) with
  | Except.error _ =>
      ⟨[], cache, calls ++ [DriveQuery.listImages levelFolderId]⟩
  | Except.ok files =>
      ⟨(files.take MAX_IMAGES).map mkImageRef, cache,
        calls ++ [DriveQuery.listImages levelFolderId]⟩

/-- Step 2 of `getLevelImages` (server.js:185-197): if the level slot read
at entry was falsy, look the level folder up under the resolved root; zero
results throw (caught: `[]`), otherwise the first file's id is cached and
listing proceeds. -/
def glStep2 (oracle : Oracle) (level : String) (levelSlot : Option String)
    (imagesFolderId : String) (cache : Cache) (calls : List DriveQuery) :
    FetchResult :=
  if jsFalsy levelSlot then
    match oracle (DriveQuery.findFolder level (some imagesFolderId)) with
    | Except.error _ =>
        ⟨[], cache, calls ++ [DriveQuery.findFolder level (some imagesFolderId)]⟩
    | Except.ok [] =>
        ⟨[], cache, calls ++ [DriveQuery.findFolder level (some imagesFolderId)]⟩
    | Except.ok (f :: _) =>
        glStep3 oracle f.id (jsSet cache ("Images/" ++ level) f.id)
          (calls ++ [DriveQuery.findFolder level (some imagesFolderId)])
  else
    glStep3 oracle (levelSlot.getD "") cache calls

/-- `getLevelImages` (server.js:164-220).  Both cache slots are read at
entry, exactly as in the source; step 1 resolves the root `Images` folder
on a cache miss (zero results throw, caught into `[]`). -/
def getLevelImages (oracle : Oracle) (cache : Cache) (level : String) :
    FetchResult :=
  if jsFalsy (jsGet cache "Images") then
    match oracle (DriveQuery.findFolder "Images" none) with
    | Except.error _ => ⟨[], cache, [DriveQuery.findFolder "Images" none]⟩
    | Except.ok [] => ⟨[], cache, [DriveQuery.findFolder "Images" none]⟩
    | Except.ok (f :: _) =>
        glStep2 oracle level (jsGet cache ("Images/" ++ level)) f.id
          (jsSet cache "Images" f.id) [DriveQuery.findFolder "Images" none]
  else
    glStep2 oracle level (jsGet cache ("Images/" ++ level))
      ((jsGet cache "Images").getD "") cache []

/-- Step 4 of `getStudentImages` (part_000:223-238): list the image files
in the student folder, cap, and map — same shape as `glStep3`. -/
def gsStep4 (oracle : Oracle) (studentFolderId : String) (cache : Cache)
    (calls : List DriveQuery) : FetchResult :=
  match oracle (DriveQuery.listImages studentFolderId) with
  | Except.error _ =>
      ⟨[], cache, calls ++ [DriveQuery.listImages studentFolderId]⟩
  | Except.ok files =>
      ⟨(files.take MAX_IMAGES).map mkImageRef, cache,
        calls ++ [DriveQuery.listImages studentFolderId]⟩

/-- Step 3 of `getStudentImages` (part_000:211-220): find the student's
folder by roll number under the level folder.  This lookup is never cached;
zero results return `[]` directly. -/
def gsStep3 (oracle : Oracle) (rollNumber : String) (levelFolderId : String)
    (cache : Cache) (calls : List DriveQuery) : FetchResult :=
  match oracle (DriveQuery.findFolder rollNumber (some levelFolderId)) with
  | Except.error _ =>
      ⟨[], cache, calls ++ [DriveQuery.findFolder rollNumber (some levelFolderId)]⟩
  | Except.ok [] =>
      ⟨[], cache, calls ++ [DriveQuery.findFolder rollNumber (some levelFolderId)]⟩
  | Except.ok (f :: _) =>
      gsStep4 oracle f.id cache
        (calls ++ [DriveQuery.findFolder rollNumber (some levelFolderId)])

/-- Step 2 of `getStudentImages` (part_000:196-208): identical to
`glStep2` except that resolution continues with the student lookup. -/
def gsStep2 (oracle : Oracle) (level rollNumber : String)
    (levelSlot : Option String) (imagesFolderId : String) (cache : Cache)
    (calls : List DriveQuery) : FetchResult :=
  if jsFalsy levelSlot then
    match oracle (DriveQuery.findFolder level (some imagesFolderId)) with
    | Except.error _ =>
        ⟨[], cache, calls ++ [DriveQuery.findFolder level (some imagesFolderId)]⟩
    | Except.ok [] =>
        ⟨[], cache, calls ++ [DriveQuery.findFolder level (some imagesFolderId)]⟩
    | Except.ok (f :: _) =>
        gsStep3 oracle rollNumber f.id (jsSet cache ("Images/" ++ level) f.id)
          (calls ++ [DriveQuery.findFolder level (some imagesFolderId)])
  else
    gsStep3 oracle rollNumber (levelSlot.getD "") cache calls

/-- `getStudentImages` (part_000:174-244): root and level resolution as in
`getLevelImages`, then the uncached student lookup and the image listing. -/
def getStudentImages (oracle : Oracle) (cache : Cache)
    (level rollNumber : String) : FetchResult :=
  if jsFalsy (jsGet cache "Images") then
    match oracle (DriveQuery.findFolder "Images" none) with
    | Except.error _ => ⟨[], cache, [DriveQuery.findFolder "Images" none]⟩
    | Except.ok [] => ⟨[], cache, [DriveQuery.findFolder "Images" none]⟩
    | Except.ok (f :: _) =>
        gsStep2 oracle level rollNumber (jsGet cache ("Images/" ++ level)) f.id
          (jsSet cache "Images" f.id) [DriveQuery.findFolder "Images" none]
  else
    gsStep2 oracle level rollNumber (jsGet cache ("Images/" ++ level))
      ((jsGet cache "Images").getD "") cache []

/-- The query-string parameters of a request to `GET /api/images`; an
absent parameter is `none`. -/
structure ReqQuery where
  level : Option String
  rollNumber : Option String
deriving DecidableEq, Repr

/-- Outcome of the validation middleware: either a short-circuiting
`res.status(s).json({success:false, message})` or `next()`. -/
inductive ValidationResult where
  | reject (status : Nat) (message : String)
  | proceed
deriving DecidableEq, Repr

/-- `const allowedLevels = ['UG', 'PG', 'PHD']`. -/
def allowedLevels : List String := ["UG", "PG", "PHD"]

/-- `validateInput` of server.js:47-68 (only `level` is required). -/
def validateInput (q : ReqQuery) : ValidationResult :=
  if jsFalsy q.level then
    ValidationResult.reject 400 "Level is required"
  else if !(allowedLevels.contains (q.level.getD "")) then
    ValidationResult.reject 400 "Level must be one of: UG, PG, PHD"
  else
    ValidationResult.proceed

/-- The regex test of part_000:54, `/^\d{10}$/.test(rollNumber)`. -/
def matchesTenDigits (s : String) : Bool :=
  s.length == 10 && s.data.all Char.isDigit

/-- `validateInput` of part_000:42-72 (roll number and level required). -/
def validateInputCred (q : ReqQuery) : ValidationResult :=
  if jsFalsy q.rollNumber || jsFalsy q.level then
    ValidationResult.reject 400 "Roll number and level are required"
  else if !(matchesTenDigits (q.rollNumber.getD "")) then
    ValidationResult.reject 400 "Roll number must be exactly 10 digits"
  else if !(allowedLevels.contains (q.level.getD "")) then
    ValidationResult.reject 400 "Level must be one of: UG, PG, PHD"
  else
    ValidationResult.proceed

/-- Complement of the character class in the regex `[^a-zA-Z0-9]`; the
digit range `0-9` is exactly `Char.isDigit`. -/
def isAlphaNumAscii (c : Char) : Bool :=
  ('a' ≤ c && c ≤ 'z') || ('A' ≤ c && c ≤ 'Z') || c.isDigit

/-- `sanitizeFileName` (server.js:93-95): drop every character outside
`[a-zA-Z0-9]`. -/
def sanitizeFileName (name : String) : String :=
  String.mk (name.data.filter isAlphaNumAscii)

/-- Which side of `Promise.race([imagesPromise, timeoutPromise])` settles
first: the 30-second timer rejecting, or the fetch completing. -/
inductive RaceOutcome where
  | timedOut
  | completed
deriving DecidableEq, Repr

/-- The JSON body and status the endpoint sends; absent fields are `none`. -/
structure ApiResponse where
  status : Nat
  success : Bool
  message : Option String
  level : Option String
  rollNumber : Option String
  images : Option (List ImageRef)
deriving DecidableEq, Repr

/-- Observable outcome of one request to `GET /api/images`: the response,
the upstream queries issued, and the cache afterwards.  A validation
rejection issues no queries. -/
structure EndpointResult where
  response : ApiResponse
  calls : List DriveQuery
  cache : Cache
deriving DecidableEq, Repr

/-- The `GET /api/images` handler of server.js:98-124, composed with its
validation middleware.  On timeout the race rejects and the catch sends the
generic 500; the fetch still runs to completion in the background, so its
cache writes and upstream calls are recorded either way. -/
def handleImages (oracle : Oracle) (cache : Cache) (q : ReqQuery)
    (race : RaceOutcome) : EndpointResult :=
  match validateInput q with
  | ValidationResult.reject s m => ⟨⟨s, false, some m, none, none, none⟩, [], cache⟩
  | ValidationResult.proceed =>
      let r := getLevelImages oracle cache (sanitizeFileName (q.level.getD ""))
      match race with
      | RaceOutcome.timedOut =>
          ⟨⟨500, false, some "Error retrieving images", none, none, none⟩,
            r.calls, r.cache⟩
      | RaceOutcome.completed =>
          ⟨⟨200, true, none, some (sanitizeFileName (q.level.getD "")), none,
            some r.images⟩, r.calls, r.cache⟩

/-- The `GET /api/images` handler of part_000:102-135 (credential-based
variant), composed with its validation middleware. -/
def handleImagesCred (oracle : Oracle) (cache : Cache) (q : ReqQuery)
    (race : RaceOutcome) : EndpointResult :=
  match validateInputCred q with
  | ValidationResult.reject s m => ⟨⟨s, false, some m, none, none, none⟩, [], cache⟩
  | ValidationResult.proceed =>
      let r := getStudentImages oracle cache (sanitizeFileName (q.level.getD ""))
        (sanitizeFileName (q.rollNumber.getD ""))
      match race with
      | RaceOutcome.timedOut =>
          ⟨⟨500, false, some "Error retrieving images", none, none, none⟩,
            r.calls, r.cache⟩
      | RaceOutcome.completed =>
          ⟨⟨200, true, none, some (sanitizeFileName (q.level.getD "")),
            some (sanitizeFileName (q.rollNumber.getD "")), some r.images⟩,
            r.calls, r.cache⟩

/-! ## Specification-side resolution helpers

These mirror the outcome of the sequential resolution steps and are used
only to state theorems; the theorems below relate them to the run of the
embedded functions. -/

/-- Outcome of step 1: the id under which the rest of the run addresses the
root `Images` folder, if resolution gets that far. -/
def resolveRootId (oracle : Oracle) (cache : Cache) : Option String :=
  if jsFalsy (jsGet cache "Images") then
    match oracle (DriveQuery.findFolder "Images" none) with
    | Except.ok (f :: _) => some f.id
    | _ => none
  else jsGet cache "Images"

/-- Outcome of step 2: the id of the level folder, if resolution gets that
far; the level slot is the one read at entry, as in the source. -/
def resolveLevelId (oracle : Oracle) (cache : Cache) (level : String) :
    Option String :=
  match resolveRootId oracle cache with
  | none => none
  | some rid =>
      if jsFalsy (jsGet cache ("Images/" ++ level)) then
        match oracle (DriveQuery.findFolder level (some rid)) with
        | Except.ok (f :: _) => some f.id
        | _ => none
      else jsGet cache ("Images/" ++ level)

/-- Outcome of step 3 of the credential-based variant: the id of the
student folder, if resolution gets that far. -/
def resolveStudentId (oracle : Oracle) (cache : Cache)
    (level rollNumber : String) : Option String :=
  match resolveLevelId oracle cache level with
  | none => none
  | some lid =>
      match oracle (DriveQuery.findFolder rollNumber (some lid)) with
      | Except.ok (f :: _) => some f.id
      | _ => none

/-- The cache after step 1: on a root miss, a successful root listing
caches the first returned id under `Images`; otherwise the cache is
untouched. -/
def cacheRootPart (o : Oracle) (c : Cache) : Cache :=
  if jsFalsy (jsGet c "Images") then
    match o (DriveQuery.findFolder "Images" none) with
    | Except.ok (f :: _) => jsSet c "Images" f.id
    | _ => c
  else c

/-- The image list produced from a terminal folder id: what step 3 of
`getLevelImages` (or step 4 of `getStudentImages`) returns. -/
def imagesFromListing (oracle : Oracle) (folderId : String) : List ImageRef :=
  match oracle (DriveQuery.listImages folderId) with
  | Except.error _ => []
  | Except.ok files => (files.take MAX_IMAGES).map mkImageRef

/-- The folder-lookup calls among a list of issued queries. -/
def findFolderCalls (calls : List DriveQuery) : List DriveQuery :=
  calls.filter fun q =>
    match q with
    | DriveQuery.findFolder _ _ => true
    | DriveQuery.listImages _ => false

/-- Whether a query constrains the parent folder (`'P' in parents`). -/
def hasParentFilter : DriveQuery → Bool
  | DriveQuery.findFolder _ parent => parent.isSome
  | DriveQuery.listImages _ => true

/-- A run in which folder resolution of the level variant finds no matching
folder: the root or the level lookup is actually performed and returns zero
results. -/
def noMatchingFolder (oracle : Oracle) (cache : Cache) (level : String) :
    Prop :=
  (jsFalsy (jsGet cache "Images") = true ∧
    oracle (DriveQuery.findFolder "Images" none) = Except.ok []) ∨
  (∃ rid, resolveRootId oracle cache = some rid ∧
    jsFalsy (jsGet cache ("Images/" ++ level)) = true ∧
    oracle (DriveQuery.findFolder level (some rid)) = Except.ok [])

/-- A run in which folder resolution of the credential variant finds no
matching folder at some stage. -/
def noMatchingStudentFolder (oracle : Oracle) (cache : Cache)
    (level rollNumber : String) : Prop :=
  noMatchingFolder oracle cache level ∨
  (∃ lid, resolveLevelId oracle cache level = some lid ∧
    oracle (DriveQuery.findFolder rollNumber (some lid)) = Except.ok [])

/-- An upstream in which every call rejects (a total Drive outage). -/
def oracleFails (oracle : Oracle) : Prop :=
  ∀ q, ∃ e, oracle q = Except.error e

/-! ## Concrete oracles used in counterexamples and witnesses -/

/-- Oracle that answers every listing with zero results. -/
def oracleAllEmpty : Oracle := fun _ => Except.ok []

/-- Oracle on which every call rejects. -/
def oracleAllErr : Oracle := fun _ => Except.error "Google Drive error"

/-- A root `Images` folder record. -/
def rootFolderFile : DriveFile :=
  ⟨"rootId", "Images", "application/vnd.google-apps.folder"⟩

/-- Oracle that knows only the root `Images` folder; every other lookup
returns zero results. -/
def oracleRootOnly : Oracle := fun q =>
  match q with
  | DriveQuery.findFolder "Images" none => Except.ok [rootFolderFile]
  | _ => Except.ok []

/-- A `UG` level folder record. -/
def levelFolderFile : DriveFile :=
  ⟨"levelId", "UG", "application/vnd.google-apps.folder"⟩

/-- A student folder record for roll number `1234567890`. -/
def studentFolderFile : DriveFile :=
  ⟨"studentId", "1234567890", "application/vnd.google-apps.folder"⟩

/-- A single image file record. -/
def imageFile : DriveFile := ⟨"img1", "pic.png", "image/png"⟩

/-- Oracle describing a fully populated Drive: root, `UG` level folder, a
student folder for `1234567890`, and one image in each terminal folder. -/
def oracleFull : Oracle := fun q =>
  match q with
  | DriveQuery.findFolder "Images" none => Except.ok [rootFolderFile]
  | DriveQuery.findFolder "UG" (some "rootId") => Except.ok [levelFolderFile]
  | DriveQuery.findFolder "1234567890" (some "levelId") =>
      Except.ok [studentFolderFile]
  | DriveQuery.listImages "levelId" => Except.ok [imageFile]
  | DriveQuery.listImages "studentId" => Except.ok [imageFile]
  | _ => Except.ok []

/-! ## Helper lemmas -/

theorem jsGet_jsSet_same (c : Cache) (k v : String) :
    jsGet (jsSet c k v) k = some v := by
  simp [jsGet, jsSet]

theorem jsGet_jsSet_ne (c : Cache) (k v key : String) (h : k ≠ key) :
    jsGet (jsSet c k v) key = jsGet c key := by
  simp [jsGet, jsSet, h]

theorem jsFalsy_false_iff (o : Option String) :
    jsFalsy o = false ↔ ∃ s, o = some s ∧ s ≠ "" := by
  cases o with
  | none => simp [jsFalsy]
  | some s => simp [jsFalsy]

theorem levelKey_ne_root (level : String) : ("Images/" ++ level) ≠ "Images" := by
  intro h
  have h2 := congrArg String.length h
  rw [String.length_append] at h2
  have h3 : ("Images/" : String).length = 7 := rfl
  have h4 : ("Images" : String).length = 6 := rfl
  rw [h3, h4] at h2
  omega

theorem mem_findFolderCalls (n : String) (p : Option String)
    (l : List DriveQuery) :
    DriveQuery.findFolder n p ∈ findFolderCalls l ↔
      DriveQuery.findFolder n p ∈ l := by
  simp [findFolderCalls, List.mem_filter]

theorem count_findFolderCalls (n : String) (p : Option String)
    (l : List DriveQuery) :
    List.count (DriveQuery.findFolder n p) (findFolderCalls l) =
      List.count (DriveQuery.findFolder n p) l :=
  List.count_filter rfl

theorem findFolderCalls_append (a b : List DriveQuery) :
    findFolderCalls (a ++ b) = findFolderCalls a ++ findFolderCalls b :=
  List.filter_append a b

theorem imagesFromListing_length (o : Oracle) (fid : String) :
    (imagesFromListing o fid).length ≤ MAX_IMAGES := by
  unfold imagesFromListing
  cases h : o (DriveQuery.listImages fid) with
  | error e => simp
  | ok files =>
      simp [List.length_take]

theorem glStep3_eq (o : Oracle) (lid : String) (c : Cache)
    (cs : List DriveQuery) :
    glStep3 o lid c cs =
      ⟨imagesFromListing o lid, c, cs ++ [DriveQuery.listImages lid]⟩ := by
  unfold glStep3 imagesFromListing
  cases h : o (DriveQuery.listImages lid) with
  | error e => simp [h]
  | ok files => simp [h]

theorem gsStep4_eq (o : Oracle) (sid : String) (c : Cache)
    (cs : List DriveQuery) :
    gsStep4 o sid c cs =
      ⟨imagesFromListing o sid, c, cs ++ [DriveQuery.listImages sid]⟩ := by
  unfold gsStep4 imagesFromListing
  cases h : o (DriveQuery.listImages sid) with
  | error e => simp [h]
  | ok files => simp [h]

theorem glStep2_images (o : Oracle) (level : String) (levelSlot : Option String)
    (rootId : String) (c : Cache) (cs : List DriveQuery) :
    (glStep2 o level levelSlot rootId c cs).images =
      if jsFalsy levelSlot then
        match o (DriveQuery.findFolder level (some rootId)) with
        | Except.ok (f :: _) => imagesFromListing o f.id
        | _ => []
      else imagesFromListing o (levelSlot.getD "") := by
  unfold glStep2
  cases hj : jsFalsy levelSlot with
  | false => simp [glStep3_eq]
  | true =>
      simp only [if_true, if_pos]
      cases h : o (DriveQuery.findFolder level (some rootId)) with
      | error e => simp [h]
      | ok files => cases files <;> simp [h, glStep3_eq]

theorem glStep2_cache (o : Oracle) (level : String) (levelSlot : Option String)
    (rootId : String) (c : Cache) (cs : List DriveQuery) :
    (glStep2 o level levelSlot rootId c cs).cache =
      if jsFalsy levelSlot then
        match o (DriveQuery.findFolder level (some rootId)) with
        | Except.ok (f :: _) => jsSet c ("Images/" ++ level) f.id
        | _ => c
      else c := by
  unfold glStep2
  cases hj : jsFalsy levelSlot with
  | false => simp [glStep3_eq]
  | true =>
      simp only [if_true, if_pos]
      cases h : o (DriveQuery.findFolder level (some rootId)) with
      | error e => simp [h]
      | ok files => cases files <;> simp [h, glStep3_eq]

theorem glStep2_ffc (o : Oracle) (level : String) (levelSlot : Option String)
    (rootId : String) (c : Cache) (cs : List DriveQuery) :
    findFolderCalls (glStep2 o level levelSlot rootId c cs).calls =
      findFolderCalls cs ++
        (if jsFalsy levelSlot then [DriveQuery.findFolder level (some rootId)]
         else []) := by
  unfold glStep2
  cases hj : jsFalsy levelSlot with
  | false => simp [glStep3_eq, findFolderCalls_append, findFolderCalls]
  | true =>
      simp only [if_true, if_pos]
      cases h : o (DriveQuery.findFolder level (some rootId)) with
      | error e => simp [h, findFolderCalls_append, findFolderCalls]
      | ok files =>
          cases files <;>
            simp [h, glStep3_eq, findFolderCalls_append, findFolderCalls]

theorem gsStep3_eq (o : Oracle) (roll lid : String) (c : Cache)
    (cs : List DriveQuery) :
    gsStep3 o roll lid c cs =
      ⟨(match o (DriveQuery.findFolder roll (some lid)) with
        | Except.ok (f :: _) => imagesFromListing o f.id
        | _ => []),
        c,
        cs ++ [DriveQuery.findFolder roll (some lid)] ++
          (match o (DriveQuery.findFolder roll (some lid)) with
           | Except.ok (f :: _) => [DriveQuery.listImages f.id]
           | _ => [])⟩ := by
  unfold gsStep3
  cases h : o (DriveQuery.findFolder roll (some lid)) with
  | error e => simp [h]
  | ok files => cases files <;> simp [h, gsStep4_eq]

theorem gsStep2_images (o : Oracle) (level roll : String)
    (levelSlot : Option String) (rootId : String) (c : Cache)
    (cs : List DriveQuery) :
    (gsStep2 o level roll levelSlot rootId c cs).images =
      if jsFalsy levelSlot then
        match o (DriveQuery.findFolder level (some rootId)) with
        | Except.ok (f :: _) =>
            (match o (DriveQuery.findFolder roll (some f.id)) with
             | Except.ok (g :: _) => imagesFromListing o g.id
             | _ => [])
        | _ => []
      else
        match o (DriveQuery.findFolder roll (some (levelSlot.getD ""))) with
        | Except.ok (g :: _) => imagesFromListing o g.id
        | _ => [] := by
  unfold gsStep2
  cases hj : jsFalsy levelSlot with
  | false => simp [gsStep3_eq]
  | true =>
      simp only [if_true, if_pos]
      cases h : o (DriveQuery.findFolder level (some rootId)) with
      | error e => simp [h]
      | ok files => cases files <;> simp [h, gsStep3_eq]

theorem gsStep2_cache (o : Oracle) (level roll : String)
    (levelSlot : Option String) (rootId : String) (c : Cache)
    (cs : List DriveQuery) :
    (gsStep2 o level roll levelSlot rootId c cs).cache =
      if jsFalsy levelSlot then
        match o (DriveQuery.findFolder level (some rootId)) with
        | Except.ok (f :: _) => jsSet c ("Images/" ++ level) f.id
        | _ => c
      else c := by
  unfold gsStep2
  cases hj : jsFalsy levelSlot with
  | false => simp [gsStep3_eq]
  | true =>
      simp only [if_true, if_pos]
      cases h : o (DriveQuery.findFolder level (some rootId)) with
      | error e => simp [h]
      | ok files => cases files <;> simp [h, gsStep3_eq]

theorem gsStep2_ffc (o : Oracle) (level roll : String)
    (levelSlot : Option String) (rootId : String) (c : Cache)
    (cs : List DriveQuery) :
    findFolderCalls (gsStep2 o level roll levelSlot rootId c cs).calls =
      findFolderCalls cs ++
        (if jsFalsy levelSlot then
          DriveQuery.findFolder level (some rootId) ::
            (match o (DriveQuery.findFolder level (some rootId)) with
             | Except.ok (f :: _) => [DriveQuery.findFolder roll (some f.id)]
             | _ => [])
         else [DriveQuery.findFolder roll (some (levelSlot.getD ""))]) := by
  unfold gsStep2
  cases hj : jsFalsy levelSlot with
  | false =>
      simp only [Bool.false_eq_true, if_false]
      rw [gsStep3_eq]
      cases h : o (DriveQuery.findFolder roll (some (levelSlot.getD ""))) with
      | error e => simp [h, findFolderCalls_append, findFolderCalls]
      | ok files =>
          cases files <;>
            simp [h, findFolderCalls_append, findFolderCalls]
  | true =>
      simp only [if_true, if_pos]
      cases h : o (DriveQuery.findFolder level (some rootId)) with
      | error e => simp [h, findFolderCalls_append, findFolderCalls]
      | ok files =>
          cases files with
          | nil => simp [h, findFolderCalls_append, findFolderCalls]
          | cons f fs =>
              simp only [h]
              rw [gsStep3_eq]
              cases h2 : o (DriveQuery.findFolder roll (some f.id)) with
              | error e => simp [h2, findFolderCalls_append, findFolderCalls]
              | ok files2 =>
                  cases files2 <;>
                    simp [h2, findFolderCalls_append, findFolderCalls]

theorem getLevelImages_images (o : Oracle) (c : Cache) (level : String) :
    (getLevelImages o c level).images =
      match resolveLevelId o c level with
      | none => []
      | some lid => imagesFromListing o lid := by
  unfold getLevelImages resolveLevelId resolveRootId
  cases hr : jsFalsy (jsGet c "Images") with
  | true =>
      simp only [hr, if_true]
      cases ho : o (DriveQuery.findFolder "Images" none) with
      | error e => simp [ho]
      | ok files =>
          cases files with
          | nil => simp [ho]
          | cons f fs =>
              simp only [ho]
              rw [glStep2_images]
              cases hl : jsFalsy (jsGet c ("Images/" ++ level)) with
              | true =>
                  simp only [hl, if_true]
                  cases h2 : o (DriveQuery.findFolder level (some f.id)) with
                  | error e => simp [h2]
                  | ok files2 => cases files2 <;> simp [h2]
              | false =>
                  obtain ⟨s, hs, hne⟩ := (jsFalsy_false_iff _).mp hl
                  simp [hl, hs]
  | false =>
      obtain ⟨s, hs, hne⟩ := (jsFalsy_false_iff _).mp hr
      simp only [hr, Bool.false_eq_true, if_false]
      rw [glStep2_images]
      cases hl : jsFalsy (jsGet c ("Images/" ++ level)) with
      | true =>
          simp only [hl, if_true, hs]
          cases h2 : o (DriveQuery.findFolder level (some s)) with
          | error e => simp [h2]
          | ok files2 => cases files2 <;> simp [h2]
      | false =>
          obtain ⟨t, ht, hne2⟩ := (jsFalsy_false_iff _).mp hl
          simp [hl, hs, ht]

theorem getLevelImages_ffc (o : Oracle) (c : Cache) (level : String) :
    findFolderCalls (getLevelImages o c level).calls =
      (if jsFalsy (jsGet c "Images") then [DriveQuery.findFolder "Images" none]
       else []) ++
      (match resolveRootId o c with
       | none => []
       | some rid =>
          if jsFalsy (jsGet c ("Images/" ++ level)) then
            [DriveQuery.findFolder level (some rid)]
          else []) := by
  unfold getLevelImages resolveRootId
  cases hr : jsFalsy (jsGet c "Images") with
  | true =>
      simp only [hr, if_true]
      cases ho : o (DriveQuery.findFolder "Images" none) with
      | error e => simp [ho, findFolderCalls]
      | ok files =>
          cases files with
          | nil => simp [ho, findFolderCalls]
          | cons f fs =>
              simp only [ho]
              rw [glStep2_ffc]
              simp [findFolderCalls]
  | false =>
      obtain ⟨s, hs, hne⟩ := (jsFalsy_false_iff _).mp hr
      simp only [hr, Bool.false_eq_true, if_false]
      rw [glStep2_ffc]
      simp [hs, findFolderCalls]

theorem getLevelImages_cache (o : Oracle) (c : Cache) (level : String) :
    (getLevelImages o c level).cache =
      (match resolveLevelId o c level, jsFalsy (jsGet c ("Images/" ++ level)) with
       | some lid, true => jsSet (cacheRootPart o c) ("Images/" ++ level) lid
       | _, _ => cacheRootPart o c) := by
  unfold getLevelImages resolveLevelId resolveRootId cacheRootPart
  cases hr : jsFalsy (jsGet c "Images") with
  | true =>
      simp only [hr, if_true]
      cases ho : o (DriveQuery.findFolder "Images" none) with
      | error e => simp [ho]
      | ok files =>
          cases files with
          | nil => simp [ho]
          | cons f fs =>
              simp only [ho]
              rw [glStep2_cache]
              cases hl : jsFalsy (jsGet c ("Images/" ++ level)) with
              | true =>
                  simp only [hl, if_true]
                  cases h2 : o (DriveQuery.findFolder level (some f.id)) with
                  | error e => simp [h2]
                  | ok files2 => cases files2 <;> simp [h2]
              | false =>
                  obtain ⟨s, hs, hne⟩ := (jsFalsy_false_iff _).mp hl
                  simp [hl, hs]
  | false =>
      obtain ⟨s, hs, hne⟩ := (jsFalsy_false_iff _).mp hr
      simp only [hr, Bool.false_eq_true, if_false]
      rw [glStep2_cache]
      cases hl : jsFalsy (jsGet c ("Images/" ++ level)) with
      | true =>
          simp only [hl, if_true, hs]
          cases h2 : o (DriveQuery.findFolder level (some s)) with
          | error e => simp [h2]
          | ok files2 => cases files2 <;> simp [h2]
      | false =>
          obtain ⟨t, ht, hne2⟩ := (jsFalsy_false_iff _).mp hl
          simp [hl, hs, ht]

theorem getStudentImages_images (o : Oracle) (c : Cache)
    (level roll : String) :
    (getStudentImages o c level roll).images =
      match resolveStudentId o c level roll with
      | none => []
      | some sid => imagesFromListing o sid := by
  unfold getStudentImages resolveStudentId resolveLevelId resolveRootId
  cases hr : jsFalsy (jsGet c "Images") with
  | true =>
      simp only [hr, if_true]
      cases ho : o (DriveQuery.findFolder "Images" none) with
      | error e => simp [ho]
      | ok files =>
          cases files with
          | nil => simp [ho]
          | cons f fs =>
              simp only [ho]
              rw [gsStep2_images]
              cases hl : jsFalsy (jsGet c ("Images/" ++ level)) with
              | true =>
                  simp only [hl, if_true]
                  cases h2 : o (DriveQuery.findFolder level (some f.id)) with
                  | error e => simp [h2]
                  | ok files2 =>
                      cases files2 with
                      | nil => simp [h2]
                      | cons g gs =>
                          simp only [h2]
                          cases h3 : o (DriveQuery.findFolder roll (some g.id)) with
                          | error e => simp [h3]
                          | ok files3 => cases files3 <;> simp [h3]
              | false =>
                  obtain ⟨s, hs, hne⟩ := (jsFalsy_false_iff _).mp hl
                  simp only [hl, Bool.false_eq_true, if_false, hs]
                  cases h3 : o (DriveQuery.findFolder roll (some s)) with
                  | error e => simp [h3]
                  | ok files3 => cases files3 <;> simp [h3]
  | false =>
      obtain ⟨s, hs, hne⟩ := (jsFalsy_false_iff _).mp hr
      simp only [hr, Bool.false_eq_true, if_false]
      rw [gsStep2_images]
      cases hl : jsFalsy (jsGet c ("Images/" ++ level)) with
      | true =>
          simp only [hl, if_true, hs]
          cases h2 : o (DriveQuery.findFolder level (some s)) with
          | error e => simp [h2]
          | ok files2 =>
              cases files2 with
              | nil => simp [h2]
              | cons g gs =>
                  simp only [h2]
                  cases h3 : o (DriveQuery.findFolder roll (some g.id)) with
                  | error e => simp [h2, h3]
                  | ok files3 => cases files3 <;> simp [h2, h3]
      | false =>
          obtain ⟨t, ht, hne2⟩ := (jsFalsy_false_iff _).mp hl
          simp only [hl, Bool.false_eq_true, if_false, hs, ht]
          cases h3 : o (DriveQuery.findFolder roll (some t)) with
          | error e => simp [h3]
          | ok files3 => cases files3 <;> simp [h3]

theorem getStudentImages_ffc (o : Oracle) (c : Cache) (level roll : String) :
    findFolderCalls (getStudentImages o c level roll).calls =
      (if jsFalsy (jsGet c "Images") then [DriveQuery.findFolder "Images" none]
       else []) ++
      (match resolveRootId o c with
       | none => []
       | some rid =>
          if jsFalsy (jsGet c ("Images/" ++ level)) then
            [DriveQuery.findFolder level (some rid)]
          else []) ++
      (match resolveLevelId o c level with
       | none => []
       | some lid => [DriveQuery.findFolder roll (some lid)]) := by
  unfold getStudentImages resolveLevelId resolveRootId
  cases hr : jsFalsy (jsGet c "Images") with
  | true =>
      simp only [hr, if_true]
      cases ho : o (DriveQuery.findFolder "Images" none) with
      | error e => simp [ho, findFolderCalls]
      | ok files =>
          cases files with
          | nil => simp [ho, findFolderCalls]
          | cons f fs =>
              simp only [ho]
              rw [gsStep2_ffc]
              cases hl : jsFalsy (jsGet c ("Images/" ++ level)) with
              | true =>
                  simp only [hl, if_true]
                  cases h2 : o (DriveQuery.findFolder level (some f.id)) with
                  | error e => simp [h2, findFolderCalls]
                  | ok files2 =>
                      cases files2 <;> simp [h2, findFolderCalls]
              | false =>
                  obtain ⟨s, hs, hne⟩ := (jsFalsy_false_iff _).mp hl
                  simp [hl, hs, findFolderCalls]
  | false =>
      obtain ⟨s, hs, hne⟩ := (jsFalsy_false_iff _).mp hr
      simp only [hr, Bool.false_eq_true, if_false]
      rw [gsStep2_ffc]
      cases hl : jsFalsy (jsGet c ("Images/" ++ level)) with
      | true =>
          simp only [hl, if_true, hs]
          cases h2 : o (DriveQuery.findFolder level (some s)) with
          | error e => simp [h2, findFolderCalls]
          | ok files2 => cases files2 <;> simp [h2, findFolderCalls]
      | false =>
          obtain ⟨t, ht, hne2⟩ := (jsFalsy_false_iff _).mp hl
          simp [hl, hs, ht, findFolderCalls]

theorem getStudentImages_cache (o : Oracle) (c : Cache) (level roll : String) :
    (getStudentImages o c level roll).cache =
      (match resolveLevelId o c level, jsFalsy (jsGet c ("Images/" ++ level)) with
       | some lid, true => jsSet (cacheRootPart o c) ("Images/" ++ level) lid
       | _, _ => cacheRootPart o c) := by
  unfold getStudentImages resolveLevelId resolveRootId cacheRootPart
  cases hr : jsFalsy (jsGet c "Images") with
  | true =>
      simp only [hr, if_true]
      cases ho : o (DriveQuery.findFolder "Images" none) with
      | error e => simp [ho]
      | ok files =>
          cases files with
          | nil => simp [ho]
          | cons f fs =>
              simp only [ho]
              rw [gsStep2_cache]
              cases hl : jsFalsy (jsGet c ("Images/" ++ level)) with
              | true =>
                  simp only [hl, if_true]
                  cases h2 : o (DriveQuery.findFolder level (some f.id)) with
                  | error e => simp [h2]
                  | ok files2 => cases files2 <;> simp [h2]
              | false =>
                  obtain ⟨s, hs, hne⟩ := (jsFalsy_false_iff _).mp hl
                  simp [hl, hs]
  | false =>
      obtain ⟨s, hs, hne⟩ := (jsFalsy_false_iff _).mp hr
      simp only [hr, Bool.false_eq_true, if_false]
      rw [gsStep2_cache]
      cases hl : jsFalsy (jsGet c ("Images/" ++ level)) with
      | true =>
          simp only [hl, if_true, hs]
          cases h2 : o (DriveQuery.findFolder level (some s)) with
          | error e => simp [h2]
          | ok files2 => cases files2 <;> simp [h2]
      | false =>
          obtain ⟨t, ht, hne2⟩ := (jsFalsy_false_iff _).mp hl
          simp [hl, hs, ht]

theorem cacheRootPart_get_ne (o : Oracle) (c : Cache) (k : String)
    (h : k ≠ "Images") : jsGet (cacheRootPart o c) k = jsGet c k := by
  unfold cacheRootPart
  cases hr : jsFalsy (jsGet c "Images") with
  | false => simp
  | true =>
      simp only [if_true]
      cases ho : o (DriveQuery.findFolder "Images" none) with
      | error e => simp [ho]
      | ok files =>
          cases files with
          | nil => simp [ho]
          | cons f fs => simp [ho, jsGet_jsSet_ne _ _ _ _ (Ne.symm h)]

theorem cacheRootPart_get_images (o : Oracle) (c : Cache) :
    jsGet (cacheRootPart o c) "Images" = jsGet c "Images" ∨
      (jsFalsy (jsGet c "Images") = true ∧ ∃ f rest,
        o (DriveQuery.findFolder "Images" none) = Except.ok (f :: rest) ∧
        jsGet (cacheRootPart o c) "Images" = some f.id) := by
  unfold cacheRootPart
  cases hr : jsFalsy (jsGet c "Images") with
  | false => left; simp
  | true =>
      simp only [if_true]
      cases ho : o (DriveQuery.findFolder "Images" none) with
      | error e => left; simp [ho]
      | ok files =>
          cases files with
          | nil => left; simp [ho]
          | cons f fs =>
              right
              exact ⟨by trivial, f, fs, rfl, by simp [ho, jsGet_jsSet_same]⟩

theorem cacheRootPart_get_resolved (o : Oracle) (c : Cache) (rid : String)
    (h : resolveRootId o c = some rid) :
    jsGet (cacheRootPart o c) "Images" = some rid := by
  unfold cacheRootPart
  unfold resolveRootId at h
  cases hr : jsFalsy (jsGet c "Images") with
  | false =>
      rw [hr] at h
      simpa using h
  | true =>
      rw [hr] at h
      simp only [if_true] at h ⊢
      cases ho : o (DriveQuery.findFolder "Images" none) with
      | error e => rw [ho] at h; simp at h
      | ok files =>
          cases files with
          | nil => rw [ho] at h; simp at h
          | cons f fs =>
              rw [ho] at h
              simp only [Option.some.injEq] at h
              simp [ho, jsGet_jsSet_same, h]

theorem getLevelImages_cache_get_ne (o : Oracle) (c : Cache) (level k : String)
    (h1 : k ≠ "Images") (h2 : k ≠ "Images/" ++ level) :
    jsGet (getLevelImages o c level).cache k = jsGet c k := by
  rw [getLevelImages_cache]
  rcases hres : resolveLevelId o c level with _ | lid <;>
    cases hl : jsFalsy (jsGet c ("Images/" ++ level)) <;>
      simp [jsGet_jsSet_ne _ _ _ _ (Ne.symm h2), cacheRootPart_get_ne o c k h1]

theorem getStudentImages_cache_get_ne (o : Oracle) (c : Cache)
    (level roll k : String) (h1 : k ≠ "Images") (h2 : k ≠ "Images/" ++ level) :
    jsGet (getStudentImages o c level roll).cache k = jsGet c k := by
  rw [getStudentImages_cache]
  rcases hres : resolveLevelId o c level with _ | lid <;>
    cases hl : jsFalsy (jsGet c ("Images/" ++ level)) <;>
      simp [jsGet_jsSet_ne _ _ _ _ (Ne.symm h2), cacheRootPart_get_ne o c k h1]

theorem getLevelImages_cache_get_root (o : Oracle) (c : Cache)
    (level rid : String) (h : resolveRootId o c = some rid) :
    jsGet (getLevelImages o c level).cache "Images" = some rid := by
  rw [getLevelImages_cache]
  rcases hres : resolveLevelId o c level with _ | lid <;>
    cases hl : jsFalsy (jsGet c ("Images/" ++ level)) <;>
      simp [jsGet_jsSet_ne _ _ _ _ (levelKey_ne_root level),
        cacheRootPart_get_resolved o c rid h]

theorem getStudentImages_cache_get_root (o : Oracle) (c : Cache)
    (level roll rid : String) (h : resolveRootId o c = some rid) :
    jsGet (getStudentImages o c level roll).cache "Images" = some rid := by
  rw [getStudentImages_cache]
  rcases hres : resolveLevelId o c level with _ | lid <;>
    cases hl : jsFalsy (jsGet c ("Images/" ++ level)) <;>
      simp [jsGet_jsSet_ne _ _ _ _ (levelKey_ne_root level),
        cacheRootPart_get_resolved o c rid h]

theorem resolveLevelId_miss_elim (o : Oracle) (c : Cache) (level lid : String)
    (hres : resolveLevelId o c level = some lid)
    (hl : jsFalsy (jsGet c ("Images/" ++ level)) = true) :
    ∃ rid f rest, resolveRootId o c = some rid ∧
      o (DriveQuery.findFolder level (some rid)) = Except.ok (f :: rest) ∧
      f.id = lid := by
  unfold resolveLevelId at hres
  rcases hroot : resolveRootId o c with _ | rid <;> rw [hroot] at hres
  · simp at hres
  · rw [hl] at hres
    simp only [if_true] at hres
    cases hq : o (DriveQuery.findFolder level (some rid)) with
    | error e => rw [hq] at hres; simp at hres
    | ok files =>
        cases files with
        | nil => rw [hq] at hres; simp at hres
        | cons f fs =>
            rw [hq] at hres
            simp only [Option.some.injEq] at hres
            exact ⟨rid, f, fs, rfl, hq, hres⟩

theorem getLevelImages_cache_get_level (o : Oracle) (c : Cache)
    (level : String) :
    jsGet (getLevelImages o c level).cache ("Images/" ++ level) =
        jsGet c ("Images/" ++ level) ∨
      (jsFalsy (jsGet c ("Images/" ++ level)) = true ∧ ∃ rid f rest,
        resolveRootId o c = some rid ∧
        o (DriveQuery.findFolder level (some rid)) = Except.ok (f :: rest) ∧
        jsGet (getLevelImages o c level).cache ("Images/" ++ level) =
          some f.id) := by
  rw [getLevelImages_cache]
  rcases hres : resolveLevelId o c level with _ | lid
  · left
    cases hl : jsFalsy (jsGet c ("Images/" ++ level)) <;>
      simp [cacheRootPart_get_ne o c _ (levelKey_ne_root level)]
  · cases hl : jsFalsy (jsGet c ("Images/" ++ level)) with
    | false =>
        left
        simp [cacheRootPart_get_ne o c _ (levelKey_ne_root level)]
    | true =>
        right
        obtain ⟨rid, f, fs, hroot, hq, hid⟩ :=
          resolveLevelId_miss_elim o c level lid hres hl
        refine ⟨rfl, rid, f, fs, hroot, hq, ?_⟩
        simp [jsGet_jsSet_same, hid]

theorem getStudentImages_cache_get_level (o : Oracle) (c : Cache)
    (level roll : String) :
    jsGet (getStudentImages o c level roll).cache ("Images/" ++ level) =
        jsGet c ("Images/" ++ level) ∨
      (jsFalsy (jsGet c ("Images/" ++ level)) = true ∧ ∃ rid f rest,
        resolveRootId o c = some rid ∧
        o (DriveQuery.findFolder level (some rid)) = Except.ok (f :: rest) ∧
        jsGet (getStudentImages o c level roll).cache ("Images/" ++ level) =
          some f.id) := by
  rw [getStudentImages_cache]
  rcases hres : resolveLevelId o c level with _ | lid
  · left
    cases hl : jsFalsy (jsGet c ("Images/" ++ level)) <;>
      simp [cacheRootPart_get_ne o c _ (levelKey_ne_root level)]
  · cases hl : jsFalsy (jsGet c ("Images/" ++ level)) with
    | false =>
        left
        simp [cacheRootPart_get_ne o c _ (levelKey_ne_root level)]
    | true =>
        right
        obtain ⟨rid, f, fs, hroot, hq, hid⟩ :=
          resolveLevelId_miss_elim o c level lid hres hl
        refine ⟨rfl, rid, f, fs, hroot, hq, ?_⟩
        simp [jsGet_jsSet_same, hid]

theorem getStudentImages_cache_get_images (o : Oracle) (c : Cache)
    (level roll : String) :
    jsGet (getStudentImages o c level roll).cache "Images" =
        jsGet c "Images" ∨
      (jsFalsy (jsGet c "Images") = true ∧ ∃ f rest,
        o (DriveQuery.findFolder "Images" none) = Except.ok (f :: rest) ∧
        jsGet (getStudentImages o c level roll).cache "Images" =
          some f.id) := by
  rw [getStudentImages_cache]
  have hget : ∀ m : Cache,
      (match resolveLevelId o c level, jsFalsy (jsGet c ("Images/" ++ level)) with
       | some lid, true => jsSet m ("Images/" ++ level) lid
       | _, _ => m) = m ∨
      ∃ lid, (match resolveLevelId o c level,
          jsFalsy (jsGet c ("Images/" ++ level)) with
        | some lid, true => jsSet m ("Images/" ++ level) lid
        | _, _ => m) = jsSet m ("Images/" ++ level) lid := by
    intro m
    rcases resolveLevelId o c level with _ | lid <;>
      cases jsFalsy (jsGet c ("Images/" ++ level)) <;> simp
  rcases hget (cacheRootPart o c) with hm | ⟨lid, hm⟩ <;> rw [hm] <;>
    [skip; rw [jsGet_jsSet_ne _ _ _ _ (levelKey_ne_root level)]] <;>
    exact cacheRootPart_get_images o c

theorem getLevelImages_cache_get_images (o : Oracle) (c : Cache)
    (level : String) :
    jsGet (getLevelImages o c level).cache "Images" = jsGet c "Images" ∨
      (jsFalsy (jsGet c "Images") = true ∧ ∃ f rest,
        o (DriveQuery.findFolder "Images" none) = Except.ok (f :: rest) ∧
        jsGet (getLevelImages o c level).cache "Images" = some f.id) := by
  rw [getLevelImages_cache]
  have hget : ∀ m : Cache,
      (match resolveLevelId o c level, jsFalsy (jsGet c ("Images/" ++ level)) with
       | some lid, true => jsSet m ("Images/" ++ level) lid
       | _, _ => m) = m ∨
      ∃ lid, (match resolveLevelId o c level,
          jsFalsy (jsGet c ("Images/" ++ level)) with
        | some lid, true => jsSet m ("Images/" ++ level) lid
        | _, _ => m) = jsSet m ("Images/" ++ level) lid := by
    intro m
    rcases resolveLevelId o c level with _ | lid <;>
      cases jsFalsy (jsGet c ("Images/" ++ level)) <;> simp
  rcases hget (cacheRootPart o c) with hm | ⟨lid, hm⟩ <;> rw [hm] <;>
    [skip; rw [jsGet_jsSet_ne _ _ _ _ (levelKey_ne_root level)]] <;>
    exact cacheRootPart_get_images o c

theorem contains_false_of_not_mem (s : String) (h : s ∉ allowedLevels) :
    allowedLevels.contains s = false := by
  cases hc : allowedLevels.contains s with
  | false => rfl
  | true =>
      unfold List.contains at hc
      exact absurd (List.elem_iff.mp hc) h

theorem validateInput_reject_400 (q : ReqQuery) (s : Nat) (m : String)
    (h : validateInput q = ValidationResult.reject s m) : s = 400 := by
  unfold validateInput at h
  split at h <;> try simp_all
  split at h <;> simp_all

theorem validateInputCred_reject_400 (q : ReqQuery) (s : Nat) (m : String)
    (h : validateInputCred q = ValidationResult.reject s m) : s = 400 := by
  unfold validateInputCred at h
  split at h <;> try simp_all
  split at h <;> try simp_all
  split at h <;> simp_all

theorem validateInput_proceed (q : ReqQuery) (lv : String)
    (hlv : q.level = some lv) (hallow : lv ∈ allowedLevels) :
    validateInput q = ValidationResult.proceed := by
  have h3 : lv = "UG" ∨ lv = "PG" ∨ lv = "PHD" := by
    simpa [allowedLevels] using hallow
  unfold validateInput
  rw [hlv]
  rcases h3 with h | h | h <;> subst h <;> rfl

theorem validateInputCred_proceed (q : ReqQuery) (lv rn : String)
    (hlv : q.level = some lv) (hallow : lv ∈ allowedLevels)
    (hrn : q.rollNumber = some rn) (hdig : matchesTenDigits rn = true) :
    validateInputCred q = ValidationResult.proceed := by
  have hrn0 : rn ≠ "" := by
    intro h
    rw [h] at hdig
    exact absurd hdig (by decide)
  have h3 : lv = "UG" ∨ lv = "PG" ∨ lv = "PHD" := by
    simpa [allowedLevels] using hallow
  unfold validateInputCred
  rw [hlv, hrn]
  rcases h3 with h | h | h <;> subst h <;>
    simp [jsFalsy, hrn0, hdig, allowedLevels]

theorem validateInput_invalid_reject (q : ReqQuery)
    (h : ∀ lv, q.level = some lv → lv ∉ allowedLevels) :
    ∃ m, validateInput q = ValidationResult.reject 400 m := by
  unfold validateInput
  cases hj : jsFalsy q.level with
  | true => exact ⟨"Level is required", by simp⟩
  | false =>
      obtain ⟨s, hs, hne⟩ := (jsFalsy_false_iff _).mp hj
      exact ⟨"Level must be one of: UG, PG, PHD", by simp [hs, h s hs]⟩

theorem validateInputCred_invalid_roll_reject (q : ReqQuery)
    (h : ∀ rn, q.rollNumber = some rn → matchesTenDigits rn = false) :
    ∃ m, validateInputCred q = ValidationResult.reject 400 m := by
  unfold validateInputCred
  cases hj : jsFalsy q.rollNumber with
  | true => exact ⟨"Roll number and level are required", by simp⟩
  | false =>
      obtain ⟨s, hs, hne⟩ := (jsFalsy_false_iff _).mp hj
      have hdig : matchesTenDigits s = false := h s hs
      cases hj2 : jsFalsy q.level with
      | true => exact ⟨"Roll number and level are required", by simp⟩
      | false =>
          exact ⟨"Roll number must be exactly 10 digits",
            by simp [hs, hdig]⟩

theorem validateInputCred_invalid_level_reject (q : ReqQuery)
    (h : ∀ lv, q.level = some lv → lv ∉ allowedLevels) :
    ∃ m, validateInputCred q = ValidationResult.reject 400 m := by
  unfold validateInputCred
  cases hj2 : jsFalsy q.level with
  | true => exact ⟨"Roll number and level are required", by simp⟩
  | false =>
      obtain ⟨s, hs, hne⟩ := (jsFalsy_false_iff _).mp hj2
      cases hj : jsFalsy q.rollNumber with
      | true => exact ⟨"Roll number and level are required", by simp⟩
      | false =>
          cases hdig : matchesTenDigits (q.rollNumber.getD "") with
          | false => exact ⟨"Roll number must be exactly 10 digits", by simp [hdig]⟩
          | true =>
              exact ⟨"Level must be one of: UG, PG, PHD",
                by simp [hdig, hs, h s hs]⟩

theorem sanitize_of_all_alnum (s : String)
    (h : s.data.all isAlphaNumAscii = true) : sanitizeFileName s = s := by
  unfold sanitizeFileName
  rw [List.filter_eq_self.mpr (List.all_eq_true.mp h)]

theorem isDigit_isAlphaNumAscii (c : Char) (h : c.isDigit = true) :
    isAlphaNumAscii c = true := by
  simp [isAlphaNumAscii, h]

theorem sanitize_allowed (lv : String) (h : lv ∈ allowedLevels) :
    sanitizeFileName lv = lv := by
  have h3 : lv = "UG" ∨ lv = "PG" ∨ lv = "PHD" := by
    simpa [allowedLevels] using h
  rcases h3 with h | h | h <;> subst h <;> rfl

theorem sanitize_ten_digits (rn : String) (h : matchesTenDigits rn = true) :
    sanitizeFileName rn = rn := by
  unfold matchesTenDigits at h
  simp only [Bool.and_eq_true] at h
  refine sanitize_of_all_alnum rn ?_
  rw [List.all_eq_true]
  intro c hc
  exact isDigit_isAlphaNumAscii c (List.all_eq_true.mp h.2 c hc)

theorem noMatchingFolder_resolveLevelId (o : Oracle) (c : Cache)
    (level : String) (h : noMatchingFolder o c level) :
    resolveLevelId o c level = none := by
  rcases h with ⟨hmiss, hroot⟩ | ⟨rid, hrid, hmiss, hlev⟩
  · unfold resolveLevelId resolveRootId
    rw [hmiss, hroot]
    rfl
  · unfold resolveLevelId
    rw [hrid]
    simp [hmiss, hlev]

theorem noMatchingStudentFolder_resolveStudentId (o : Oracle) (c : Cache)
    (level roll : String) (h : noMatchingStudentFolder o c level roll) :
    resolveStudentId o c level roll = none := by
  rcases h with h | ⟨lid, hlid, hstud⟩
  · unfold resolveStudentId
    rw [noMatchingFolder_resolveLevelId o c level h]
  · unfold resolveStudentId
    rw [hlid]
    simp [hstud]

theorem getLevelImages_noFolder (o : Oracle) (c : Cache) (level : String)
    (h : noMatchingFolder o c level) :
    (getLevelImages o c level).images = [] := by
  rw [getLevelImages_images, noMatchingFolder_resolveLevelId o c level h]

theorem getStudentImages_noFolder (o : Oracle) (c : Cache)
    (level roll : String) (h : noMatchingStudentFolder o c level roll) :
    (getStudentImages o c level roll).images = [] := by
  rw [getStudentImages_images,
    noMatchingStudentFolder_resolveStudentId o c level roll h]

theorem getLevelImages_oracleFails (o : Oracle) (c : Cache) (level : String)
    (h : oracleFails o) : (getLevelImages o c level).images = [] := by
  rw [getLevelImages_images]
  rcases hres : resolveLevelId o c level with _ | lid
  · rfl
  · obtain ⟨e, he⟩ := h (DriveQuery.listImages lid)
    simp [imagesFromListing, he]

theorem getStudentImages_oracleFails (o : Oracle) (c : Cache)
    (level roll : String) (h : oracleFails o) :
    (getStudentImages o c level roll).images = [] := by
  rw [getStudentImages_images]
  rcases hres : resolveStudentId o c level roll with _ | sid
  · rfl
  · obtain ⟨e, he⟩ := h (DriveQuery.listImages sid)
    simp [imagesFromListing, he]

theorem getLevelImages_images_le (o : Oracle) (c : Cache) (level : String) :
    (getLevelImages o c level).images.length ≤ MAX_IMAGES := by
  rw [getLevelImages_images]
  rcases hres : resolveLevelId o c level with _ | lid
  · simp
  · simpa using imagesFromListing_length o lid

theorem getStudentImages_images_le (o : Oracle) (c : Cache)
    (level roll : String) :
    (getStudentImages o c level roll).images.length ≤ MAX_IMAGES := by
  rw [getStudentImages_images]
  rcases hres : resolveStudentId o c level roll with _ | sid
  · simp
  · simpa using imagesFromListing_length o sid

/-! ## Claims -/

/-- C1: for every request to `GET /api/images` with a valid level for which
folder resolution finds no matching upstream folder (root `Images`, level,
or — in the credential variant — student roll-number folder missing), the
endpoint responds with `{success:true, images:[]}` (HTTP 200), not an error
status.  The first conjunct covers server.js, the second the credential
variant of part_000. -/
theorem noFolder_yields_success_empty :
    (∀ (oracle : Oracle) (cache : Cache) (q : ReqQuery) (lv : String),
      q.level = some lv → lv ∈ allowedLevels →
      noMatchingFolder oracle cache lv →
      (handleImages oracle cache q RaceOutcome.completed).response =
        ⟨200, true, none, some lv, none, some []⟩) ∧
    (∀ (oracle : Oracle) (cache : Cache) (q : ReqQuery) (lv rn : String),
      q.level = some lv → lv ∈ allowedLevels →
      q.rollNumber = some rn → matchesTenDigits rn = true →
      noMatchingStudentFolder oracle cache lv rn →
      (handleImagesCred oracle cache q RaceOutcome.completed).response =
        ⟨200, true, none, some lv, some rn, some []⟩) := by
  constructor
  · intro oracle cache q lv hlv hallow hfail
    have hval := validateInput_proceed q lv hlv hallow
    have hsan := sanitize_allowed lv hallow
    have himg := getLevelImages_noFolder oracle cache lv hfail
    simp [handleImages, hval, hlv, hsan, himg]
  · intro oracle cache q lv rn hlv hallow hrn hdig hfail
    have hval := validateInputCred_proceed q lv rn hlv hallow hrn hdig
    have hsan := sanitize_allowed lv hallow
    have hsan2 := sanitize_ten_digits rn hdig
    have himg := getStudentImages_noFolder oracle cache lv rn hfail
    simp [handleImagesCred, hval, hlv, hrn, hsan, hsan2, himg]

/-- Witness for C1 at concrete inputs: an upstream with no folders at all
(every listing returns zero results) yields the 200 empty-list success
response in both variants. -/
theorem noFolder_yields_success_empty_witness :
    (handleImages oracleAllEmpty [] ⟨some "UG", none⟩
        RaceOutcome.completed).response =
      ⟨200, true, none, some "UG", none, some []⟩ ∧
    (handleImagesCred oracleAllEmpty [] ⟨some "UG", some "1234567890"⟩
        RaceOutcome.completed).response =
      ⟨200, true, none, some "UG", some "1234567890", some []⟩ :=
  ⟨noFolder_yields_success_empty.1 oracleAllEmpty [] ⟨some "UG", none⟩ "UG"
      rfl (by decide) (Or.inl ⟨by decide, rfl⟩),
    noFolder_yields_success_empty.2 oracleAllEmpty []
      ⟨some "UG", some "1234567890"⟩ "UG" "1234567890" rfl (by decide) rfl
      (by decide) (Or.inl (Or.inl ⟨by decide, rfl⟩))⟩

/-- C2 counterexample: the claim says an upstream (Google Drive) error
causes a 500 response.  It does not: here every upstream call rejects, the
race completes, and the endpoint responds 200 `{success:true, images:[]}`,
because `getLevelImages` catches every Drive error and returns `[]`. -/
theorem upstream_error_not_500_counterexample :
    oracleAllErr (DriveQuery.findFolder "Images" none) =
        Except.error "Google Drive error" ∧
      (handleImages oracleAllErr [] ⟨some "UG", none⟩
          RaceOutcome.completed).response =
        ⟨200, true, none, some "UG", none, some []⟩ ∧
      (handleImages oracleAllErr [] ⟨some "UG", none⟩
          RaceOutcome.completed).response.status ≠ 500 := by
  refine ⟨rfl, by decide, by decide⟩

/-- C2 (amended): for every validated request, the 30-second timeout firing
first yields the generic 500 `{success:false, message:'Error retrieving
images'}` with no internal detail (the body is that constant); an upstream
Google Drive error does NOT reach the 500 branch — it is swallowed inside
the fetch function, and even under a total Drive outage the completed
request responds 200 with an empty image list.  Stated for both
variants. -/
theorem timeout_500_upstream_swallowed :
    ∀ (oracle : Oracle) (cache : Cache) (q : ReqQuery),
      (validateInput q = ValidationResult.proceed →
        (handleImages oracle cache q RaceOutcome.timedOut).response =
          ⟨500, false, some "Error retrieving images", none, none, none⟩) ∧
      (validateInputCred q = ValidationResult.proceed →
        (handleImagesCred oracle cache q RaceOutcome.timedOut).response =
          ⟨500, false, some "Error retrieving images", none, none, none⟩) ∧
      (oracleFails oracle → validateInput q = ValidationResult.proceed →
        (handleImages oracle cache q RaceOutcome.completed).response =
          ⟨200, true, none, some (sanitizeFileName (q.level.getD "")), none,
            some []⟩) ∧
      (oracleFails oracle → validateInputCred q = ValidationResult.proceed →
        (handleImagesCred oracle cache q RaceOutcome.completed).response =
          ⟨200, true, none, some (sanitizeFileName (q.level.getD "")),
            some (sanitizeFileName (q.rollNumber.getD "")), some []⟩) := by
  intro oracle cache q
  refine ⟨?_, ?_, ?_, ?_⟩
  · intro hval
    simp [handleImages, hval]
  · intro hval
    simp [handleImagesCred, hval]
  · intro hfail hval
    have himg := getLevelImages_oracleFails oracle cache
      (sanitizeFileName (q.level.getD "")) hfail
    simp [handleImages, hval, himg]
  · intro hfail hval
    have himg := getStudentImages_oracleFails oracle cache
      (sanitizeFileName (q.level.getD ""))
      (sanitizeFileName (q.rollNumber.getD "")) hfail
    simp [handleImagesCred, hval, himg]

/-- Witness for the amended C2 at concrete inputs. -/
theorem timeout_500_upstream_swallowed_witness :
    (handleImages oracleAllErr [] ⟨some "UG", none⟩
        RaceOutcome.timedOut).response =
      ⟨500, false, some "Error retrieving images", none, none, none⟩ ∧
    (handleImagesCred oracleAllErr [] ⟨some "UG", some "1234567890"⟩
        RaceOutcome.timedOut).response =
      ⟨500, false, some "Error retrieving images", none, none, none⟩ ∧
    (handleImages oracleAllErr [] ⟨some "UG", none⟩
        RaceOutcome.completed).response =
      ⟨200, true, none, some "UG", none, some []⟩ ∧
    (handleImagesCred oracleAllErr [] ⟨some "UG", some "1234567890"⟩
        RaceOutcome.completed).response =
      ⟨200, true, none, some "UG", some "1234567890", some []⟩ := by
  have hfails : oracleFails oracleAllErr := fun q => ⟨"Google Drive error", rfl⟩
  have h1 := timeout_500_upstream_swallowed oracleAllErr [] ⟨some "UG", none⟩
  have h2 := timeout_500_upstream_swallowed oracleAllErr []
    ⟨some "UG", some "1234567890"⟩
  exact ⟨h1.1 (by decide), h2.2.1 (by decide),
    h1.2.2.1 hfails (by decide), h2.2.2.2 hfails (by decide)⟩

/-- C3 counterexample: the claim says every cache-miss lookup issues a call
that filters both by exact folder name and by containment in the
already-resolved parent.  The root `Images` lookup does not: with an empty
cache the (single) call triggered by the root miss is
`name='Images' and mimeType='application/vnd.google-apps.folder'` with no
`in parents` clause at all. -/
theorem root_lookup_no_parent_filter_counterexample :
    (getLevelImages oracleAllEmpty [] "UG").calls =
        [DriveQuery.findFolder "Images" none] ∧
      hasParentFilter (DriveQuery.findFolder "Images" none) = false := by
  decide

/-- C3 (amended): each cache miss triggers exactly one folder-lookup call,
filtered by exact folder-name match; the level and student lookups
additionally filter by containment in the already-resolved parent folder,
but the root `Images` lookup carries no parent filter.  The equations give
the exact folder-lookup call lists of both variants: one root call iff the
root slot misses, one level call (with the resolved root id as parent) iff
resolution reaches the level step on a level-slot miss, and — in the
credential variant — one student call (with the resolved level id as
parent) iff resolution reaches the student step. -/
theorem lookup_calls_characterization :
    ∀ (oracle : Oracle) (cache : Cache) (level roll : String),
      findFolderCalls (getLevelImages oracle cache level).calls =
        (if jsFalsy (jsGet cache "Images") then
          [DriveQuery.findFolder "Images" none] else []) ++
        (match resolveRootId oracle cache with
         | none => []
         | some rid =>
            if jsFalsy (jsGet cache ("Images/" ++ level)) then
              [DriveQuery.findFolder level (some rid)]
            else []) ∧
      findFolderCalls (getStudentImages oracle cache level roll).calls =
        (if jsFalsy (jsGet cache "Images") then
          [DriveQuery.findFolder "Images" none] else []) ++
        (match resolveRootId oracle cache with
         | none => []
         | some rid =>
            if jsFalsy (jsGet cache ("Images/" ++ level)) then
              [DriveQuery.findFolder level (some rid)]
            else []) ++
        (match resolveLevelId oracle cache level with
         | none => []
         | some lid => [DriveQuery.findFolder roll (some lid)]) :=
  fun oracle cache level roll =>
    ⟨getLevelImages_ffc oracle cache level,
      getStudentImages_ffc oracle cache level roll⟩

/-- C4: if a first invocation successfully resolves the root folder (to a
non-empty id, as Drive ids are), a second invocation starting from the
resulting cache issues no upstream find-root call, and at most one such
call is made across the two requests.  The first conjunct covers the
server.js variant (`getLevelImages`), the second the credential-based
variant (`getStudentImages`). -/
theorem second_request_serves_root_from_cache :
    ∀ (oracle1 oracle2 : Oracle) (cache : Cache)
      (level1 level2 roll1 roll2 rid : String),
      resolveRootId oracle1 cache = some rid → rid ≠ "" →
      (DriveQuery.findFolder "Images" none ∉
        (getLevelImages oracle2 (getLevelImages oracle1 cache level1).cache
          level2).calls ∧
       List.count (DriveQuery.findFolder "Images" none)
        ((getLevelImages oracle1 cache level1).calls ++
          (getLevelImages oracle2 (getLevelImages oracle1 cache level1).cache
            level2).calls) ≤ 1) ∧
      (DriveQuery.findFolder "Images" none ∉
        (getStudentImages oracle2
          (getStudentImages oracle1 cache level1 roll1).cache
          level2 roll2).calls ∧
       List.count (DriveQuery.findFolder "Images" none)
        ((getStudentImages oracle1 cache level1 roll1).calls ++
          (getStudentImages oracle2
            (getStudentImages oracle1 cache level1 roll1).cache
            level2 roll2).calls) ≤ 1) := by
  intro o1 o2 c l1 l2 r1 r2 rid hres hne
  constructor
  · set c2 := (getLevelImages o1 c l1).cache with hc2def
    have hc2 : jsGet c2 "Images" = some rid :=
      getLevelImages_cache_get_root o1 c l1 rid hres
    have hfalsy2 : jsFalsy (jsGet c2 "Images") = false := by
      rw [hc2]
      simp [jsFalsy, hne]
    have hffc2 := getLevelImages_ffc o2 c2 l2
    rw [hfalsy2] at hffc2
    simp only [Bool.false_eq_true, if_false, List.nil_append] at hffc2
    have hnotmem : DriveQuery.findFolder "Images" none ∉
        findFolderCalls (getLevelImages o2 c2 l2).calls := by
      rw [hffc2]
      rcases resolveRootId o2 c2 with _ | rid2
      · simp
      · cases jsFalsy (jsGet c2 ("Images/" ++ l2)) <;> simp
    refine ⟨fun hmem => hnotmem ((mem_findFolderCalls _ _ _).mpr hmem), ?_⟩
    rw [List.count_append]
    have hcount2 : List.count (DriveQuery.findFolder "Images" none)
        (getLevelImages o2 c2 l2).calls = 0 := by
      rw [← count_findFolderCalls]
      exact List.count_eq_zero.mpr hnotmem
    have hcount1 : List.count (DriveQuery.findFolder "Images" none)
        (getLevelImages o1 c l1).calls ≤ 1 := by
      rw [← count_findFolderCalls, getLevelImages_ffc o1 c l1,
        List.count_append]
      have ha : List.count (DriveQuery.findFolder "Images" none)
          (if jsFalsy (jsGet c "Images") then
            [DriveQuery.findFolder "Images" none] else []) ≤ 1 := by
        cases jsFalsy (jsGet c "Images") <;> simp
      have hb : List.count (DriveQuery.findFolder "Images" none)
          (match resolveRootId o1 c with
           | none => []
           | some rid =>
              if jsFalsy (jsGet c ("Images/" ++ l1)) then
                [DriveQuery.findFolder l1 (some rid)]
              else []) = 0 := by
        rcases resolveRootId o1 c with _ | rid1
        · simp
        · cases jsFalsy (jsGet c ("Images/" ++ l1)) <;> simp
      omega
    omega
  · set c2 := (getStudentImages o1 c l1 r1).cache with hc2def
    have hc2 : jsGet c2 "Images" = some rid :=
      getStudentImages_cache_get_root o1 c l1 r1 rid hres
    have hfalsy2 : jsFalsy (jsGet c2 "Images") = false := by
      rw [hc2]
      simp [jsFalsy, hne]
    have hffc2 := getStudentImages_ffc o2 c2 l2 r2
    rw [hfalsy2] at hffc2
    simp only [Bool.false_eq_true, if_false, List.nil_append] at hffc2
    have hnotmem : DriveQuery.findFolder "Images" none ∉
        findFolderCalls (getStudentImages o2 c2 l2 r2).calls := by
      rw [hffc2]
      simp only [List.mem_append, not_or]
      constructor
      · rcases resolveRootId o2 c2 with _ | rid2
        · simp
        · cases jsFalsy (jsGet c2 ("Images/" ++ l2)) <;> simp
      · rcases resolveLevelId o2 c2 l2 with _ | lid2 <;> simp
    refine ⟨fun hmem => hnotmem ((mem_findFolderCalls _ _ _).mpr hmem), ?_⟩
    rw [List.count_append]
    have hcount2 : List.count (DriveQuery.findFolder "Images" none)
        (getStudentImages o2 c2 l2 r2).calls = 0 := by
      rw [← count_findFolderCalls]
      exact List.count_eq_zero.mpr hnotmem
    have hcount1 : List.count (DriveQuery.findFolder "Images" none)
        (getStudentImages o1 c l1 r1).calls ≤ 1 := by
      rw [← count_findFolderCalls, getStudentImages_ffc o1 c l1 r1,
        List.count_append, List.count_append]
      have ha : List.count (DriveQuery.findFolder "Images" none)
          (if jsFalsy (jsGet c "Images") then
            [DriveQuery.findFolder "Images" none] else []) ≤ 1 := by
        cases jsFalsy (jsGet c "Images") <;> simp
      have hb : List.count (DriveQuery.findFolder "Images" none)
          (match resolveRootId o1 c with
           | none => []
           | some rid =>
              if jsFalsy (jsGet c ("Images/" ++ l1)) then
                [DriveQuery.findFolder l1 (some rid)]
              else []) = 0 := by
        rcases resolveRootId o1 c with _ | rid1
        · simp
        · cases jsFalsy (jsGet c ("Images/" ++ l1)) <;> simp
      have hcst : List.count (DriveQuery.findFolder "Images" none)
          (match resolveLevelId o1 c l1 with
           | none => []
           | some lid => [DriveQuery.findFolder r1 (some lid)]) = 0 := by
        rcases resolveLevelId o1 c l1 with _ | lid1 <;> simp
      omega
    omega

/-- Witness for C4 at a concrete input: one populated upstream, empty
starting cache; the root is resolved by the first request and the second
request issues no find-root call, in both variants. -/
theorem second_request_serves_root_from_cache_witness :
    (DriveQuery.findFolder "Images" none ∉
      (getLevelImages oracleFull
        (getLevelImages oracleFull [] "UG").cache "UG").calls ∧
     List.count (DriveQuery.findFolder "Images" none)
      ((getLevelImages oracleFull [] "UG").calls ++
        (getLevelImages oracleFull
          (getLevelImages oracleFull [] "UG").cache "UG").calls) ≤ 1) ∧
    (DriveQuery.findFolder "Images" none ∉
      (getStudentImages oracleFull
        (getStudentImages oracleFull [] "UG" "1234567890").cache
        "UG" "1234567890").calls ∧
     List.count (DriveQuery.findFolder "Images" none)
      ((getStudentImages oracleFull [] "UG" "1234567890").calls ++
        (getStudentImages oracleFull
          (getStudentImages oracleFull [] "UG" "1234567890").cache
          "UG" "1234567890").calls) ≤ 1) :=
  second_request_serves_root_from_cache oracleFull oracleFull [] "UG" "UG"
    "1234567890" "1234567890" "rootId" (by decide) (by decide)

/-- C5: a request whose level is absent or not one of UG, PG, PHD is
rejected with status 400 and `{success:false, message}`, regardless of the
other fields and of the race outcome, and before any external lookup (no
upstream call is issued and the cache is untouched).  Both variants. -/
theorem invalid_level_rejected_400 :
    ∀ (oracle : Oracle) (cache : Cache) (q : ReqQuery) (race : RaceOutcome),
      (∀ lv, q.level = some lv → lv ∉ allowedLevels) →
      ((handleImages oracle cache q race).response.status = 400 ∧
        (handleImages oracle cache q race).response.success = false ∧
        (∃ m, (handleImages oracle cache q race).response.message = some m) ∧
        (handleImages oracle cache q race).calls = [] ∧
        (handleImages oracle cache q race).cache = cache) ∧
      ((handleImagesCred oracle cache q race).response.status = 400 ∧
        (handleImagesCred oracle cache q race).response.success = false ∧
        (∃ m, (handleImagesCred oracle cache q race).response.message =
          some m) ∧
        (handleImagesCred oracle cache q race).calls = [] ∧
        (handleImagesCred oracle cache q race).cache = cache) := by
  intro oracle cache q race h
  obtain ⟨m, hm⟩ := validateInput_invalid_reject q h
  obtain ⟨m2, hm2⟩ := validateInputCred_invalid_level_reject q h
  constructor
  · refine ⟨?_, ?_, ⟨m, ?_⟩, ?_, ?_⟩ <;> simp [handleImages, hm]
  · refine ⟨?_, ?_, ⟨m2, ?_⟩, ?_, ?_⟩ <;> simp [handleImagesCred, hm2]

/-- Witness for C5 at concrete inputs (absent level, and level outside the
enum with an otherwise-valid roll number). -/
theorem invalid_level_rejected_400_witness :
    (handleImages oracleFull [] ⟨none, none⟩
      RaceOutcome.completed).response.status = 400 ∧
    (handleImagesCred oracleFull [] ⟨some "BTECH", some "1234567890"⟩
      RaceOutcome.completed).response.status = 400 :=
  ⟨(invalid_level_rejected_400 oracleFull [] ⟨none, none⟩
      RaceOutcome.completed (by intro lv h; cases h)).1.1,
    (invalid_level_rejected_400 oracleFull [] ⟨some "BTECH", some "1234567890"⟩
      RaceOutcome.completed (by intro lv h; cases h; decide)).2.1⟩

/-- C6: in the credential-based variant, a request whose roll number is
absent, contains a non-digit, or is not exactly 10 characters long (that
is, fails the `/^\d{10}$/` test) is rejected with status 400 and
`{success:false, message}` before any external lookup. -/
theorem invalid_rollNumber_rejected_400 :
    ∀ (oracle : Oracle) (cache : Cache) (q : ReqQuery) (race : RaceOutcome),
      (∀ rn, q.rollNumber = some rn → matchesTenDigits rn = false) →
      (handleImagesCred oracle cache q race).response.status = 400 ∧
      (handleImagesCred oracle cache q race).response.success = false ∧
      (∃ m, (handleImagesCred oracle cache q race).response.message =
        some m) ∧
      (handleImagesCred oracle cache q race).calls = [] ∧
      (handleImagesCred oracle cache q race).cache = cache := by
  intro oracle cache q race h
  obtain ⟨m, hm⟩ := validateInputCred_invalid_roll_reject q h
  refine ⟨?_, ?_, ⟨m, ?_⟩, ?_, ?_⟩ <;> simp [handleImagesCred, hm]

/-- Witness for C6 at concrete inputs: an absent roll number, a 9-digit
one, and one with a non-digit character are all rejected with 400. -/
theorem invalid_rollNumber_rejected_400_witness :
    (handleImagesCred oracleFull [] ⟨some "UG", none⟩
      RaceOutcome.completed).response.status = 400 ∧
    (handleImagesCred oracleFull [] ⟨some "UG", some "123456789"⟩
      RaceOutcome.completed).response.status = 400 ∧
    (handleImagesCred oracleFull [] ⟨some "UG", some "12345678X0"⟩
      RaceOutcome.completed).response.status = 400 :=
  ⟨(invalid_rollNumber_rejected_400 oracleFull [] ⟨some "UG", none⟩
      RaceOutcome.completed (by intro rn h; cases h)).1,
    (invalid_rollNumber_rejected_400 oracleFull [] ⟨some "UG", some "123456789"⟩
      RaceOutcome.completed (by intro rn h; cases h; decide)).1,
    (invalid_rollNumber_rejected_400 oracleFull [] ⟨some "UG", some "12345678X0"⟩
      RaceOutcome.completed (by intro rn h; cases h; decide)).1⟩

/-- C7: for every upstream listing, the returned images array has at most
10,000 entries, and when the terminal folder is resolved and its listing
succeeds with `files`, the array is exactly the first 10,000 of `files`
mapped to `{id: file.id, url: "/api/image/" ++ file.id, type:
file.mimeType}` (one entry per listed file, in order).  Both variants. -/
theorem images_capped_and_mapped :
    ∀ (oracle : Oracle) (cache : Cache) (level roll : String),
      (getLevelImages oracle cache level).images.length ≤ MAX_IMAGES ∧
      (getStudentImages oracle cache level roll).images.length ≤
        MAX_IMAGES ∧
      (∀ lid files, resolveLevelId oracle cache level = some lid →
        oracle (DriveQuery.listImages lid) = Except.ok files →
        (getLevelImages oracle cache level).images =
          (files.take MAX_IMAGES).map mkImageRef) ∧
      (∀ sid files, resolveStudentId oracle cache level roll = some sid →
        oracle (DriveQuery.listImages sid) = Except.ok files →
        (getStudentImages oracle cache level roll).images =
          (files.take MAX_IMAGES).map mkImageRef) := by
  intro oracle cache level roll
  refine ⟨getLevelImages_images_le oracle cache level,
    getStudentImages_images_le oracle cache level roll, ?_, ?_⟩
  · intro lid files hl hlist
    rw [getLevelImages_images, hl]
    simp [imagesFromListing, hlist]
  · intro sid files hs hlist
    rw [getStudentImages_images, hs]
    simp [imagesFromListing, hlist]

/-- Witness for C7 at a concrete input: a populated upstream with one image
file; the response images are exactly that file mapped to its proxy
record. -/
theorem images_capped_and_mapped_witness :
    (getLevelImages oracleFull [] "UG").images.length ≤ MAX_IMAGES ∧
    (getLevelImages oracleFull [] "UG").images =
      (([imageFile]).take MAX_IMAGES).map mkImageRef :=
  ⟨(images_capped_and_mapped oracleFull [] "UG" "1234567890").1,
    (images_capped_and_mapped oracleFull [] "UG" "1234567890").2.2.1
      "levelId" [imageFile] (by decide) rfl⟩

/-- C8: the image-fetching functions are total at their interface — in this
embedding they return a plain `FetchResult` for every oracle outcome, every
upstream failure being caught into an empty list — so the 500 branch of
`GET /api/images` is reached exactly when validation passed and the
timeout side of the race fired, in both variants. -/
theorem only_timeout_reaches_500 :
    ∀ (oracle : Oracle) (cache : Cache) (q : ReqQuery) (race : RaceOutcome),
      ((handleImages oracle cache q race).response.status = 500 ↔
        validateInput q = ValidationResult.proceed ∧
          race = RaceOutcome.timedOut) ∧
      ((handleImagesCred oracle cache q race).response.status = 500 ↔
        validateInputCred q = ValidationResult.proceed ∧
          race = RaceOutcome.timedOut) := by
  intro oracle cache q race
  constructor
  · cases hval : validateInput q with
    | reject s m =>
        have hs := validateInput_reject_400 q s m hval
        subst hs
        cases race <;> simp [handleImages, hval]
    | proceed => cases race <;> simp [handleImages, hval]
  · cases hval : validateInputCred q with
    | reject s m =>
        have hs := validateInputCred_reject_400 q s m hval
        subst hs
        cases race <;> simp [handleImagesCred, hval]
    | proceed => cases race <;> simp [handleImagesCred, hval]

/-- C9 counterexample: the claim says that whenever a lookup returns zero
results and resolution aborts, the cache is left unchanged (the throw
occurring before any cache assignment).  Here, starting from an empty
cache, the root lookup succeeds, the level lookup returns zero results and
resolution aborts with no images — yet the cache is not left unchanged: the
root entry was already written before the throw. -/
theorem cache_changed_on_aborted_resolution_counterexample :
    oracleRootOnly (DriveQuery.findFolder "UG" (some "rootId")) =
        Except.ok [] ∧
      (getLevelImages oracleRootOnly [] "UG").images = [] ∧
      (getLevelImages oracleRootOnly [] "UG").cache =
        [("Images", "rootId")] ∧
      [("Images", "rootId")] ≠ ([] : Cache) :=
  ⟨rfl, by decide, by decide, by decide⟩

/-- C9 (amended): the folder cache is only written by the successful
lookup for the corresponding path key — a lookup that returns zero results
writes no entry for its own path (though entries written by earlier
successful steps of the same aborted call persist).  Precisely, in both
variants: no key other than `Images` and `Images/LEVEL` is ever touched;
the `Images` key is unchanged unless its slot missed and the root listing
succeeded, in which case it maps to the id of the first listed file; and
likewise for the level key under the resolved root.  No key is ever removed
or overwritten while truthy. -/
theorem cache_written_only_on_success :
    ∀ (oracle : Oracle) (cache : Cache) (level roll : String),
      (∀ k, k ≠ "Images" → k ≠ "Images/" ++ level →
        jsGet (getLevelImages oracle cache level).cache k = jsGet cache k ∧
        jsGet (getStudentImages oracle cache level roll).cache k =
          jsGet cache k) ∧
      (jsGet (getLevelImages oracle cache level).cache "Images" =
          jsGet cache "Images" ∨
        (jsFalsy (jsGet cache "Images") = true ∧ ∃ f rest,
          oracle (DriveQuery.findFolder "Images" none) =
            Except.ok (f :: rest) ∧
          jsGet (getLevelImages oracle cache level).cache "Images" =
            some f.id)) ∧
      (jsGet (getLevelImages oracle cache level).cache ("Images/" ++ level) =
          jsGet cache ("Images/" ++ level) ∨
        (jsFalsy (jsGet cache ("Images/" ++ level)) = true ∧ ∃ rid f rest,
          resolveRootId oracle cache = some rid ∧
          oracle (DriveQuery.findFolder level (some rid)) =
            Except.ok (f :: rest) ∧
          jsGet (getLevelImages oracle cache level).cache
            ("Images/" ++ level) = some f.id)) ∧
      (jsGet (getStudentImages oracle cache level roll).cache "Images" =
          jsGet cache "Images" ∨
        (jsFalsy (jsGet cache "Images") = true ∧ ∃ f rest,
          oracle (DriveQuery.findFolder "Images" none) =
            Except.ok (f :: rest) ∧
          jsGet (getStudentImages oracle cache level roll).cache "Images" =
            some f.id)) ∧
      (jsGet (getStudentImages oracle cache level roll).cache
          ("Images/" ++ level) = jsGet cache ("Images/" ++ level) ∨
        (jsFalsy (jsGet cache ("Images/" ++ level)) = true ∧ ∃ rid f rest,
          resolveRootId oracle cache = some rid ∧
          oracle (DriveQuery.findFolder level (some rid)) =
            Except.ok (f :: rest) ∧
          jsGet (getStudentImages oracle cache level roll).cache
            ("Images/" ++ level) = some f.id)) :=
  fun oracle cache level roll =>
    ⟨fun k h1 h2 =>
      ⟨getLevelImages_cache_get_ne oracle cache level k h1 h2,
        getStudentImages_cache_get_ne oracle cache level roll k h1 h2⟩,
      getLevelImages_cache_get_images oracle cache level,
      getLevelImages_cache_get_level oracle cache level,
      getStudentImages_cache_get_images oracle cache level roll,
      getStudentImages_cache_get_level oracle cache level roll⟩

/-- Witness for the amended C9 at a concrete input: a key unrelated to the
resolved path is untouched by a run. -/
theorem cache_written_only_on_success_witness :
    jsGet (getLevelImages oracleRootOnly [] "UG").cache "Other" =
      jsGet ([] : Cache) "Other" :=
  ((cache_written_only_on_success oracleRootOnly [] "UG" "1234567890").1
    "Other" (by decide) (by decide)).1

/-- C10: `sanitizeFileName` is the identity on alphanumeric-only strings;
consequently a validated request (allowed level, and in the credential
variant a 10-digit roll number) has its level and roll number echoed back
verbatim in the success response. -/
theorem sanitize_identity_echo :
    (∀ s : String, s.data.all isAlphaNumAscii = true →
      sanitizeFileName s = s) ∧
    (∀ (oracle : Oracle) (cache : Cache) (q : ReqQuery) (lv : String),
      q.level = some lv → lv ∈ allowedLevels →
      (handleImages oracle cache q RaceOutcome.completed).response.level =
        q.level) ∧
    (∀ (oracle : Oracle) (cache : Cache) (q : ReqQuery) (lv rn : String),
      q.level = some lv → lv ∈ allowedLevels →
      q.rollNumber = some rn → matchesTenDigits rn = true →
      (handleImagesCred oracle cache q
          RaceOutcome.completed).response.level = q.level ∧
      (handleImagesCred oracle cache q
          RaceOutcome.completed).response.rollNumber = q.rollNumber) := by
  refine ⟨sanitize_of_all_alnum, ?_, ?_⟩
  · intro oracle cache q lv hlv hallow
    have hval := validateInput_proceed q lv hlv hallow
    simp [handleImages, hval, hlv, sanitize_allowed lv hallow]
  · intro oracle cache q lv rn hlv hallow hrn hdig
    have hval := validateInputCred_proceed q lv rn hlv hallow hrn hdig
    constructor <;>
      simp [handleImagesCred, hval, hlv, hrn, sanitize_allowed lv hallow,
        sanitize_ten_digits rn hdig]

/-- Witness for C10 at concrete inputs. -/
theorem sanitize_identity_echo_witness :
    sanitizeFileName "Student123" = "Student123" ∧
    (handleImages oracleFull [] ⟨some "UG", none⟩
      RaceOutcome.completed).response.level = some "UG" ∧
    (handleImagesCred oracleFull [] ⟨some "PG", some "1234567890"⟩
      RaceOutcome.completed).response.rollNumber = some "1234567890" :=
  ⟨sanitize_identity_echo.1 "Student123" (by decide),
    sanitize_identity_echo.2.1 oracleFull [] ⟨some "UG", none⟩ "UG" rfl
      (by decide),
    (sanitize_identity_echo.2.2 oracleFull [] ⟨some "PG", some "1234567890"⟩
      "PG" "1234567890" rfl (by decide) rfl (by decide)).2⟩

end StudentGallery
